import Mathlib

/-!
# miror-status: the metric probes of `main.go`

A shallow embedding of the four probes `GetCPUInfo`, `GetMemoryInfo`,
`GetDiskInfo` and `GetHostInfo` of `main.go`, and the properties of them that
the specification states.

Conventions of the embedding.

* The operating-system queries are calls into `gopsutil/v3`. What such a call
  returned is an argument of the embedded function.
  `cpu.Info() ([]cpu.InfoStat, error)` and
  `cpu.Percent(time.Second, false) ([]float64, error)` return slices;
  `mem.VirtualMemory() (*mem.VirtualMemoryStat, error)`,
  `disk.Usage(path) (*disk.UsageStat, error)` and
  `host.Info() (*host.InfoStat, error)` return a pointer, which is `nil`
  when the query fails. `main.go` binds every error to `_`.
* A `uint64` is a `Nat`, and `+=` on it is addition modulo `2 ^ 64`.
* A `float64` is a `Float` (IEEE 754 binary64 in both languages); where two
  values have to be told apart, the expression is evaluated on `Binary64`.
* A run-time panic of the Go function is the `Except.error` result.
-/

namespace MirorStatus

/-! ## Go run-time notions -/

/-- The run-time panics a probe can raise. -/
inductive Fault where
  /-- Field selection through a `nil` pointer. -/
  | nilDereference
  /-- Index expression outside the bounds of a slice. -/
  | indexOutOfRange
  deriving DecidableEq, Repr

/-- A query result of Go type `(*T, error)`: `ptr` is the pointer (`none` is
`nil`), `err` tells whether the error is non-nil. -/
structure Ret (α : Type) where
  ptr : Option α
  err : Bool

/-- The result of a query that succeeded: a pointer to `a`, a nil error. -/
def Ret.ok {α : Type} (a : α) : Ret α := ⟨some a, false⟩

/-- The result of a query that failed, as gopsutil returns it: `return nil, err`. -/
def Ret.failed {α : Type} : Ret α := ⟨none, true⟩

/-- Number of values of a `uint64`. -/
def u64Size : Nat := 18446744073709551616

/-- Wrap-around of `uint64` arithmetic. -/
def u64 (n : Nat) : Nat := n % u64Size

/-- The conversion `int(x)` of a `uint64` on a 64-bit target (two's complement). -/
def toInt (n : Nat) : Int :=
  if u64 n < 9223372036854775808 then (u64 n : Int) else (u64 n : Int) - 18446744073709551616

/-! ## Data structures of `main.go` -/

/-- The struct `CPUInfo`. -/
structure CPUInfo where
  ModelName : String
  Cores : Int
  Usage : Float

/-- The struct `MemoryInfo`. -/
structure MemoryInfo where
  Total : Nat
  Available : Nat
  Used : Nat
  UsedPercent : Float

/-- The struct `DiskInfo`. -/
structure DiskInfo where
  Total : Nat
  Free : Nat
  Used : Nat
  UsedPercent : Float

/-- The struct `HostInfo`; `CreateTime` is a `time.Time`, kept as the instant
read from the clock. -/
structure HostInfo where
  Hostname : String
  OS : String
  Platform : String
  BootTime : Nat
  Uptime : Nat
  Procs : Int
  CreateTime : Nat

/-! ## The gopsutil records, with the fields `main.go` reads -/

/-- The fields of `cpu.InfoStat` read by `GetCPUInfo`. -/
structure CPUInfoStat where
  ModelName : String
  Cores : Int

/-- The fields of `mem.VirtualMemoryStat` read by `GetMemoryInfo`. -/
structure VirtualMemoryStat where
  Total : Nat
  Available : Nat
  Used : Nat
  UsedPercent : Float

/-- The fields of `disk.UsageStat` read by `GetDiskInfo`. -/
structure UsageStat where
  Total : Nat
  Free : Nat
  Used : Nat

/-- The fields of `host.InfoStat` read by `GetHostInfo`. -/
structure HostInfoStat where
  Hostname : String
  OS : String
  Platform : String
  BootTime : Nat
  Uptime : Nat
  Procs : Nat

/-! ## The probes -/

/-- The first loop of `GetCPUInfo`: one `CPUInfo` is appended per descriptor,
its `Usage` left at the zero value. -/
def cpuLoop : List CPUInfoStat → List CPUInfo → List CPUInfo
  | [], cpuInfos => cpuInfos
  | info :: rest, cpuInfos =>
    cpuLoop rest (cpuInfos ++ [{ ModelName := info.ModelName, Cores := info.Cores, Usage := 0 }])

/-- The index expression `percents[0]`, which panics on an empty slice. -/
def index0 : List Float → Except Fault Float
  | [] => .error .indexOutOfRange
  | p :: _ => .ok p

/-- The assignment `cpuInfos[0].Usage = p`, which panics on an empty slice. -/
def setUsage0 (p : Float) : List CPUInfo → Except Fault (List CPUInfo)
  | [] => .error .indexOutOfRange
  | c :: cs => .ok ({ c with Usage := p } :: cs)

/-- The function `GetCPUInfo`. `infos` is the slice `cpu.Info()` returned and
`percents` the slice `cpu.Percent(time.Second, false)` returns (it is asked
for only when `cpuInfos` is not empty). -/
def GetCPUInfo (infos : List CPUInfoStat) (percents : List Float) : Except Fault (List CPUInfo) :=
  let cpuInfos := cpuLoop infos []
  if cpuInfos.length > 0 then
    if percents.length > 0 then
      match index0 percents with
      | .error e => .error e
      | .ok p => setUsage0 p cpuInfos
    else .ok cpuInfos
  else .ok cpuInfos

/-- The function `GetMemoryInfo`; `v` is what `mem.VirtualMemory()` returned. -/
def GetMemoryInfo (v : Ret VirtualMemoryStat) : Except Fault MemoryInfo :=
  match v.ptr with
  | none => .error .nilDereference
  | some v =>
    .ok { Total := v.Total, Available := v.Available, Used := v.Used, UsedPercent := v.UsedPercent }

/-- The loop of `GetDiskInfo` from the running sums `(total, free, used)`;
the list holds what `disk.Usage(part.Mountpoint)` returned for each partition
of `parts`, in order. -/
def diskLoop : List (Ret UsageStat) → Nat × Nat × Nat → Except Fault (Nat × Nat × Nat)
  | [], sums => .ok sums
  | r :: rest, (total, free, used) =>
    match r.ptr with
    | none => .error .nilDereference
    | some usage =>
      diskLoop rest (u64 (total + usage.Total), u64 (free + usage.Free), u64 (used + usage.Used))

/-- The tail of `GetDiskInfo`: the percentage and the record. -/
def diskRecord (sums : Nat × Nat × Nat) : DiskInfo :=
  let (total, free, used) := sums
  let usedPercent : Float :=
    if total > 0 then Float.ofNat used / Float.ofNat total * 100 else 0
  { Total := total, Free := free, Used := used, UsedPercent := usedPercent }

/-- The function `GetDiskInfo`; `usages` holds the result of `disk.Usage` for
each partition that `disk.Partitions(false)` listed. -/
def GetDiskInfo (usages : List (Ret UsageStat)) : Except Fault DiskInfo :=
  match diskLoop usages (0, 0, 0) with
  | .error e => .error e
  | .ok sums => .ok (diskRecord sums)

/-- The function `GetHostInfo`; `h` is what `host.Info()` returned and `now`
the instant `time.Now()` reads. -/
def GetHostInfo (h : Ret HostInfoStat) (now : Nat) : Except Fault HostInfo :=
  match h.ptr with
  | none => .error .nilDereference
  | some h =>
    .ok { Hostname := h.Hostname, OS := h.OS, Platform := h.Platform, BootTime := h.BootTime,
          Uptime := h.Uptime, Procs := toInt h.Procs, CreateTime := now }

/-! ## Binary64 arithmetic carried out exactly

`Float` operations do not compute inside a proof. To compare the percentage
`GetDiskInfo` returns with another value, the same expression is evaluated on
the non-negative binary64 values, with round to nearest, ties to even. -/

/-- A non-negative binary64 value: `finite mant exp` is `mant * 2 ^ exp` with
`mant < 2 ^ 53` and `-1074 ≤ exp ≤ 971` (zero is `finite 0 0`), besides
`+Inf` and `NaN`. -/
inductive Binary64 where
  | finite (mant : Nat) (exp : Int)
  | inf
  | nan
  deriving DecidableEq, Repr

/-- The value `+0`, the zero value of a `float64` variable. -/
def Binary64.zero : Binary64 := .finite 0 0

/-- Numerator and denominator of `n / (d * 2 ^ s)`. -/
def Binary64.scaled (n d : Nat) (s : Int) : Nat × Nat :=
  if s ≥ 0 then (n, d * 2 ^ s.toNat) else (n * 2 ^ (-s).toNat, d)

/-- Floor of the binary logarithm of `n` within `fuel` halvings. -/
def Binary64.log2Fuel : Nat → Nat → Nat
  | 0, _ => 0
  | fuel + 1, n => if n < 2 then 0 else Binary64.log2Fuel fuel (n / 2) + 1

/-- Floor of the binary logarithm of `n`, 0 at 0. -/
def Binary64.log2 (n : Nat) : Nat := Binary64.log2Fuel n n

/-- The binary64 value nearest to `n / d * 2 ^ e`, for `d > 0`, ties to even:
the quotient is cut to 53 bits (fewer below `2 ^ (-1022)`), rounded on the
remainder, and is `+Inf` from `2 ^ 1024` on. -/
def Binary64.round (n d : Nat) (e : Int) : Binary64 :=
  if n = 0 then zero else
    let s0 : Int := (log2 n : Int) - (log2 d : Int) - 53
    let s1 : Int := if (scaled n d s0).1 / (scaled n d s0).2 ≥ 2 ^ 53 then s0 + 1 else s0
    let s : Int := max s1 (-1074 - e)
    let q := (scaled n d s).1 / (scaled n d s).2
    let r := (scaled n d s).1 % (scaled n d s).2
    let m := if 2 * r > (scaled n d s).2 ∨ (2 * r = (scaled n d s).2 ∧ q % 2 = 1) then q + 1 else q
    if m = 0 then zero
    else if m = 2 ^ 53 then (if s + e + 1 > 971 then inf else finite (2 ^ 52) (s + e + 1))
    else if s + e > 971 then inf else finite m (s + e)

/-- The conversion `float64(n)` of an unsigned integer. -/
def Binary64.ofNat (n : Nat) : Binary64 := Binary64.round n 1 0

/-- The quotient `a / b` of two `float64`. -/
def Binary64.div : Binary64 → Binary64 → Binary64
  | finite a ea, finite b eb =>
    if b = 0 then (if a = 0 then nan else inf) else Binary64.round a b (ea - eb)
  | finite _ _, inf => zero
  | inf, finite _ _ => inf
  | _, _ => nan

/-- The product `a * b` of two `float64`. -/
def Binary64.mul : Binary64 → Binary64 → Binary64
  | finite a ea, finite b eb => Binary64.round (a * b) 1 (ea + eb)
  | finite a _, inf => if a = 0 then nan else inf
  | inf, finite b _ => if b = 0 then nan else inf
  | inf, inf => inf
  | _, _ => nan

/-- The expression `float64(used) / float64(total) * 100`. -/
def percentOf (used total : Nat) : Binary64 :=
  Binary64.mul (Binary64.div (Binary64.ofNat used) (Binary64.ofNat total)) (Binary64.ofNat 100)

/-- The `usedPercent` of `GetDiskInfo` as a binary64 value: the loop of
`GetDiskInfo`, then lines 146 to 149 on its sums. -/
def GetDiskUsedPercent (usages : List (Ret UsageStat)) : Except Fault Binary64 :=
  match diskLoop usages (0, 0, 0) with
  | .error e => .error e
  | .ok (total, _, used) => .ok (if total > 0 then percentOf used total else Binary64.zero)

/-! ## Sums of a partition list -/

/-- Arithmetic sum of the totals. -/
def sumTotal (l : List UsageStat) : Nat := (l.map UsageStat.Total).sum

/-- Arithmetic sum of the free sizes. -/
def sumFree (l : List UsageStat) : Nat := (l.map UsageStat.Free).sum

/-- Arithmetic sum of the used sizes. -/
def sumUsed (l : List UsageStat) : Nat := (l.map UsageStat.Used).sum

/-- The usage results of partitions whose queries all succeeded. -/
def allOk (l : List UsageStat) : List (Ret UsageStat) := l.map Ret.ok

/-- The results whose query succeeded, the others dropped. -/
def succeeded (rs : List (Ret UsageStat)) : List (Ret UsageStat) :=
  rs.filter (fun r => !r.err)

/-- The record the loop of `GetCPUInfo` builds from one descriptor. -/
def cpuRecord (info : CPUInfoStat) : CPUInfo :=
  { ModelName := info.ModelName, Cores := info.Cores, Usage := 0 }

/-- Partition A of the specification's scenario. -/
def partA : UsageStat := { Total := 100, Free := 40, Used := 60 }

/-- Partition B of the specification's scenario. -/
def partB : UsageStat := { Total := 200, Free := 150, Used := 50 }

/-- A partition of `2 ^ 63` bytes, half of it used. -/
def partHuge : UsageStat :=
  { Total := 9223372036854775808, Free := 4611686018427387904, Used := 4611686018427387904 }

/-- A CPU descriptor for the examples. -/
def cpuA : CPUInfoStat := { ModelName := "Xeon", Cores := 4 }

/-- A second CPU descriptor for the examples. -/
def cpuB : CPUInfoStat := { ModelName := "Xeon", Cores := 8 }

/-! ## Lemmas on the disk loop -/

theorem diskLoop_allOk (l : List UsageStat) (t f u : Nat) :
    diskLoop (allOk l) (u64 t, u64 f, u64 u)
      = .ok (u64 (t + sumTotal l), u64 (f + sumFree l), u64 (u + sumUsed l)) := by
  induction l generalizing t f u with
  | nil => simp [allOk, diskLoop, sumTotal, sumFree, sumUsed]
  | cons a l ih =>
    have e1 : u64 (u64 t + a.Total) = u64 (t + a.Total) := by simp [u64, Nat.add_mod]
    have e2 : u64 (u64 f + a.Free) = u64 (f + a.Free) := by simp [u64, Nat.add_mod]
    have e3 : u64 (u64 u + a.Used) = u64 (u + a.Used) := by simp [u64, Nat.add_mod]
    have := ih (t + a.Total) (f + a.Free) (u + a.Used)
    simp only [allOk] at this
    simp only [allOk, List.map_cons, diskLoop, Ret.ok, e1, e2, e3, this, sumTotal, sumFree,
      sumUsed, List.sum_cons, Nat.add_assoc]

theorem GetDiskInfo_allOk (l : List UsageStat) :
    GetDiskInfo (allOk l)
      = .ok (diskRecord (u64 (sumTotal l), u64 (sumFree l), u64 (sumUsed l))) := by
  have h := diskLoop_allOk l 0 0 0
  have z : u64 0 = 0 := rfl
  simp only [z, Nat.zero_add] at h
  unfold GetDiskInfo
  rw [h]

theorem diskLoop_perm {l₁ l₂ : List (Ret UsageStat)} (h : l₁.Perm l₂) :
    ∀ sums, diskLoop l₁ sums = diskLoop l₂ sums := by
  induction h with
  | nil => intro _; rfl
  | cons x _ ih =>
    rintro ⟨t, f, u⟩
    cases hx : x.ptr <;> simp [diskLoop, hx, ih]
  | swap x y l =>
    rintro ⟨t, f, u⟩
    cases hx : x.ptr <;> cases hy : y.ptr <;> simp [diskLoop, hx, hy]
    rename_i a b
    have e : ∀ p q r : Nat, u64 (u64 (p + q) + r) = u64 (u64 (p + r) + q) := by
      intro p q r
      simp only [u64, u64Size]
      omega
    rw [e t b.Total a.Total, e f b.Free a.Free, e u b.Used a.Used]
  | trans _ _ ih₁ ih₂ => intro s; rw [ih₁ s, ih₂ s]

/-! ## Lemmas on the CPU loop -/

theorem cpuLoop_eq (infos : List CPUInfoStat) (acc : List CPUInfo) :
    cpuLoop infos acc = acc ++ infos.map cpuRecord := by
  induction infos generalizing acc with
  | nil => simp [cpuLoop]
  | cons a l ih => simp [cpuLoop, ih, cpuRecord]

theorem GetCPUInfo_nil (percents : List Float) : GetCPUInfo [] percents = .ok [] := by
  simp [GetCPUInfo, cpuLoop]

theorem GetCPUInfo_cons_cons (d : CPUInfoStat) (ds : List CPUInfoStat) (u : Float)
    (ps : List Float) :
    GetCPUInfo (d :: ds) (u :: ps)
      = .ok ({ ModelName := d.ModelName, Cores := d.Cores, Usage := u } :: ds.map cpuRecord) := by
  simp [GetCPUInfo, cpuLoop_eq, index0, setUsage0, cpuRecord]

theorem GetCPUInfo_cons_nil (d : CPUInfoStat) (ds : List CPUInfoStat) :
    GetCPUInfo (d :: ds) [] = .ok ((d :: ds).map cpuRecord) := by
  simp [GetCPUInfo, cpuLoop_eq]

/-! ## Disk probe -/

/-- C1, as the code has it: for every list of per-partition usage results,
`GetDiskInfo` returns a record whose total, free and used are the sums of the
per-partition values modulo `2 ^ 64`; partitions {100,40,60} and {200,150,50}
give total 300, free 190 and used 110. -/
theorem GetDiskInfo_sums_mod (l : List UsageStat) :
    (∃ r, GetDiskInfo (allOk l) = .ok r ∧
      r.Total = sumTotal l % 2 ^ 64 ∧ r.Free = sumFree l % 2 ^ 64 ∧
      r.Used = sumUsed l % 2 ^ 64) ∧
    (∃ r, GetDiskInfo (allOk [partA, partB]) = .ok r ∧
      r.Total = 300 ∧ r.Free = 190 ∧ r.Used = 110) := by
  refine ⟨⟨_, GetDiskInfo_allOk l, rfl, rfl, rfl⟩, ⟨_, rfl, rfl, rfl, rfl⟩⟩

/-- C1, as stated, fails: two partitions of `2 ^ 63` bytes have the arithmetic
total `2 ^ 64`, and `GetDiskInfo` returns total 0. -/
theorem GetDiskInfo_sum_overflow :
    GetDiskInfo (allOk [partHuge, partHuge])
      = .ok { Total := 0, Free := 9223372036854775808, Used := 9223372036854775808,
              UsedPercent := 0 } ∧
    sumTotal [partHuge, partHuge] = 18446744073709551616 ∧
    ¬ ∃ r, GetDiskInfo (allOk [partHuge, partHuge]) = .ok r ∧
      r.Total = sumTotal [partHuge, partHuge] := by
  have h : GetDiskInfo (allOk [partHuge, partHuge])
      = .ok { Total := 0, Free := 9223372036854775808, Used := 9223372036854775808,
              UsedPercent := 0 } := rfl
  refine ⟨h, rfl, ?_⟩
  rintro ⟨r, hr, ht⟩
  rw [h] at hr
  injection hr with hr
  subst hr
  exact absurd ht (by decide)

/-- C3: for every partition set whose summed total is 0 (the sum the code
computes, which is 0 whenever the arithmetic sum is), `GetDiskInfo` returns
`used_percent = 0`, the zero value that no division produced; for the empty
partition set the record is {0, 0, 0, 0}. -/
theorem GetDiskInfo_total_zero (l : List UsageStat) (h : sumTotal l % 2 ^ 64 = 0) :
    GetDiskInfo (allOk l)
      = .ok { Total := 0, Free := sumFree l % 2 ^ 64, Used := sumUsed l % 2 ^ 64,
              UsedPercent := 0 } ∧
    GetDiskInfo [] = .ok { Total := 0, Free := 0, Used := 0, UsedPercent := 0 } := by
  refine ⟨?_, rfl⟩
  have h0 : u64 (sumTotal l) = 0 := h
  rw [GetDiskInfo_allOk, h0]
  rfl

theorem GetDiskInfo_total_zero_witness :
    sumTotal [({ Total := 0, Free := 0, Used := 7 } : UsageStat)] % 2 ^ 64 = 0 ∧
    GetDiskInfo (allOk [{ Total := 0, Free := 0, Used := 7 }])
      = .ok { Total := 0, Free := 0, Used := 7, UsedPercent := 0 } :=
  ⟨by decide, (GetDiskInfo_total_zero [{ Total := 0, Free := 0, Used := 7 }] (by decide)).1⟩

/-- C7, as the code has it: for every partition set whose summed total modulo
`2 ^ 64`, the total of the record, is greater than 0, `GetDiskInfo` returns
`used_percent = float64(used) / float64(total) * 100` over the sums modulo
`2 ^ 64` of the used sizes and of the totals; used 110 and total 300 give
`110 / 300 * 100`. -/
theorem GetDiskInfo_usedPercent (l : List UsageStat) (h : 0 < sumTotal l % 2 ^ 64) :
    GetDiskInfo (allOk l)
      = .ok { Total := sumTotal l % 2 ^ 64, Free := sumFree l % 2 ^ 64,
              Used := sumUsed l % 2 ^ 64,
              UsedPercent :=
                Float.ofNat (sumUsed l % 2 ^ 64) / Float.ofNat (sumTotal l % 2 ^ 64) * 100 } ∧
    GetDiskInfo (allOk [partA, partB])
      = .ok { Total := 300, Free := 190, Used := 110,
              UsedPercent := Float.ofNat 110 / Float.ofNat 300 * 100 } := by
  refine ⟨?_, rfl⟩
  have h0 : u64 (sumTotal l) > 0 := h
  rw [GetDiskInfo_allOk]
  simp only [diskRecord, h0, if_true]
  rfl

theorem GetDiskInfo_usedPercent_witness :
    0 < sumTotal [partB, partA, partB] % 2 ^ 64 ∧
    GetDiskInfo (allOk [partB, partA, partB])
      = .ok { Total := 500, Free := 340, Used := 160,
              UsedPercent := Float.ofNat 160 / Float.ofNat 500 * 100 } :=
  ⟨by decide, (GetDiskInfo_usedPercent [partB, partA, partB] (by decide)).1⟩

/-- C7, as stated, fails. Two partitions of `2 ^ 63` bytes, half used, have
the summed total `2 ^ 64 > 0` and the summed used `2 ^ 63`, so that the claim
gives `2 ^ 63 / 2 ^ 64 * 100 = 50`; the total of the code wraps to 0 and
`GetDiskInfo` returns `used_percent = 0` without dividing. With partition A
added the code divides by the wrapped total 100 and returns `2 ^ 63`, where
the claim gives 50 again. -/
theorem GetDiskInfo_usedPercent_overflow :
    0 < sumTotal [partHuge, partHuge] ∧
    GetDiskInfo (allOk [partHuge, partHuge])
      = .ok { Total := 0, Free := 9223372036854775808, Used := 9223372036854775808,
              UsedPercent := 0 } ∧
    GetDiskUsedPercent (allOk [partHuge, partHuge]) = .ok Binary64.zero ∧
    percentOf (sumUsed [partHuge, partHuge]) (sumTotal [partHuge, partHuge])
      = .finite (50 * 2 ^ 47) (-47) ∧
    GetDiskUsedPercent (allOk [partHuge, partHuge])
      ≠ .ok (percentOf (sumUsed [partHuge, partHuge]) (sumTotal [partHuge, partHuge])) ∧
    GetDiskInfo (allOk [partHuge, partHuge, partA])
      = .ok { Total := 100, Free := 9223372036854775848, Used := 9223372036854775868,
              UsedPercent := Float.ofNat 9223372036854775868 / Float.ofNat 100 * 100 } ∧
    GetDiskUsedPercent (allOk [partHuge, partHuge, partA]) = .ok (.finite (2 ^ 52) 11) ∧
    percentOf (sumUsed [partHuge, partHuge, partA]) (sumTotal [partHuge, partHuge, partA])
      = .finite (50 * 2 ^ 47) (-47) := by
  have h1 : GetDiskUsedPercent (allOk [partHuge, partHuge]) = .ok Binary64.zero := rfl
  have h2 : percentOf (sumUsed [partHuge, partHuge]) (sumTotal [partHuge, partHuge])
      = .finite (50 * 2 ^ 47) (-47) := by decide!
  refine ⟨by decide, rfl, h1, h2, ?_, rfl, ?_, by decide!⟩
  · rw [h1, h2]
    intro h
    injection h with h
    injection h with hm _
    omega
  · have h3 : percentOf 9223372036854775868 100 = .finite (2 ^ 52) 11 := by decide!
    have h4 : diskLoop (allOk [partHuge, partHuge, partA]) (0, 0, 0)
        = .ok (100, 9223372036854775848, 9223372036854775868) := rfl
    unfold GetDiskUsedPercent
    rw [h4]
    simp only [gt_iff_lt, Nat.lt_add_one, Nat.ofNat_pos, if_true, h3]

/-- C8: disk aggregation is order-independent: `GetDiskInfo` returns the same
result, all four fields alike, on a list of usage results and on every
permutation of it. -/
theorem GetDiskInfo_perm (l₁ l₂ : List (Ret UsageStat)) (h : l₁.Perm l₂) :
    GetDiskInfo l₁ = GetDiskInfo l₂ := by
  unfold GetDiskInfo
  rw [diskLoop_perm h]

theorem GetDiskInfo_perm_witness :
    List.Perm [Ret.ok partA, Ret.ok partB] [Ret.ok partB, Ret.ok partA] ∧
    GetDiskInfo [Ret.ok partA, Ret.ok partB] = GetDiskInfo [Ret.ok partB, Ret.ok partA] :=
  ⟨List.Perm.swap _ _ _, GetDiskInfo_perm _ _ (List.Perm.swap _ _ _)⟩

/-- C4 fails on the code: a partition whose usage query failed makes
`GetDiskInfo` panic on the nil pointer, where the record of the successfully
queried partitions alone is {300, 190, 110, 110 / 300 * 100}. -/
theorem GetDiskInfo_failed_usage :
    GetDiskInfo [Ret.ok partA, Ret.failed, Ret.ok partB] = .error .nilDereference ∧
    GetDiskInfo (succeeded [Ret.ok partA, Ret.failed, Ret.ok partB])
      = .ok { Total := 300, Free := 190, Used := 110,
              UsedPercent := Float.ofNat 110 / Float.ofNat 300 * 100 } :=
  ⟨rfl, rfl⟩

/-! ## CPU probe -/

/-- C2: for every non-empty descriptor list and every usage sample `u`,
`GetCPUInfo` returns a list whose entry at index 0 has usage `u` and whose
entries at index 1 and above all have usage 0; two descriptors and the sample
45.0 give the usages [45.0, 0]. -/
theorem GetCPUInfo_usage_first (d : CPUInfoStat) (ds : List CPUInfoStat) (u : Float)
    (ps : List Float) :
    (∃ c cs, GetCPUInfo (d :: ds) (u :: ps) = .ok (c :: cs) ∧ c.Usage = u ∧
      cs.length = ds.length ∧ ∀ c' ∈ cs, c'.Usage = 0) ∧
    (∃ cs, GetCPUInfo [cpuA, cpuB] [45.0] = .ok cs ∧ cs.map CPUInfo.Usage = [45.0, 0]) := by
  refine ⟨⟨_, _, GetCPUInfo_cons_cons d ds u ps, rfl, by simp, ?_⟩, ⟨_, rfl, rfl⟩⟩
  intro c' hc
  obtain ⟨i, _, rfl⟩ := List.mem_map.1 hc
  rfl

/-- C9: for every descriptor list, `GetCPUInfo` returns one record per
descriptor, in the same order, each with that descriptor's model name and core
count; on zero descriptors the result is the empty list, whatever the usage
sample. -/
theorem GetCPUInfo_records (infos : List CPUInfoStat) (percents : List Float) :
    (∃ cs, GetCPUInfo infos percents = .ok cs ∧
      cs.map (fun c => (c.ModelName, c.Cores)) = infos.map (fun i => (i.ModelName, i.Cores))) ∧
    GetCPUInfo [] percents = .ok [] := by
  refine ⟨?_, GetCPUInfo_nil percents⟩
  cases infos with
  | nil => exact ⟨_, GetCPUInfo_nil percents, rfl⟩
  | cons d ds =>
    cases percents with
    | nil => exact ⟨_, GetCPUInfo_cons_nil d ds, by simp [cpuRecord]⟩
    | cons u ps => exact ⟨_, GetCPUInfo_cons_cons d ds u ps, by simp [cpuRecord]⟩

/-- C10: for every non-empty descriptor list, when the usage sample yields no
values `GetCPUInfo` raises no index fault and returns the descriptor-derived
records, in order, with usage 0 on every entry, index 0 included. -/
theorem GetCPUInfo_no_sample (d : CPUInfoStat) (ds : List CPUInfoStat) :
    GetCPUInfo (d :: ds) []
      = .ok ((d :: ds).map
          (fun i => { ModelName := i.ModelName, Cores := i.Cores, Usage := 0 })) ∧
    ∃ cs, GetCPUInfo (d :: ds) [] = .ok cs ∧ ∀ c ∈ cs, c.Usage = 0 := by
  refine ⟨GetCPUInfo_cons_nil d ds, _, GetCPUInfo_cons_nil d ds, ?_⟩
  intro c hc
  obtain ⟨i, _, rfl⟩ := List.mem_map.1 hc
  rfl

/-! ## Memory probe -/

/-- When `mem.VirtualMemory()` succeeds, `GetMemoryInfo` copies the four
reported values unchanged. -/
theorem GetMemoryInfo_ok (v : VirtualMemoryStat) :
    GetMemoryInfo (Ret.ok v)
      = .ok { Total := v.Total, Available := v.Available, Used := v.Used,
              UsedPercent := v.UsedPercent } := rfl

/-- C5 fails on the code: when `mem.VirtualMemory()` fails and returns the nil
pointer, `GetMemoryInfo` panics on `v.Total` and returns no record. -/
theorem GetMemoryInfo_failed :
    GetMemoryInfo Ret.failed = .error .nilDereference ∧
    ¬ ∃ r, GetMemoryInfo Ret.failed = .ok r := by
  refine ⟨rfl, ?_⟩
  rintro ⟨r, hr⟩
  cases hr

/-! ## Host probe -/

/-- When `host.Info()` succeeds, `GetHostInfo` copies the reported values and
stamps the instant read from the clock. -/
theorem GetHostInfo_ok (h : HostInfoStat) (now : Nat) :
    GetHostInfo (Ret.ok h) now
      = .ok { Hostname := h.Hostname, OS := h.OS, Platform := h.Platform,
              BootTime := h.BootTime, Uptime := h.Uptime, Procs := toInt h.Procs,
              CreateTime := now } := rfl

/-- C6 fails on the code: when `host.Info()` fails and returns the nil pointer,
`GetHostInfo` panics on `h.Hostname`, so that no record and no timestamp are
returned, whatever the clock reads. -/
theorem GetHostInfo_failed (now : Nat) :
    GetHostInfo Ret.failed now = .error .nilDereference ∧
    ¬ ∃ r, GetHostInfo Ret.failed now = .ok r := by
  refine ⟨rfl, ?_⟩
  rintro ⟨r, hr⟩
  cases hr

end MirorStatus
